import Mathlib

/-!
Verification development for the two-way state-synchronization coordinator
(`custom_components/ha_two_way_sync/__init__.py`, class `SimpleSyncCoordinator`).

The Python coordinator is shallowly embedded: entity states are immutable
snapshots with a tagged attribute map, the coordinator's mutable dictionaries
(`_last_sync_times`, `_state_cache`, `_progressive_sync_tasks`) become explicit
association lists threaded through step functions, wall-clock instants become
rationals, and external service invocations become values of a `ServiceCall`
list (the engine only ever requests actions of the external executor).
-/

namespace TwoWaySync

/-- Tagged attribute value: Home Assistant attribute maps hold numbers,
strings, booleans, numeric lists (colors) and string lists (options). -/
inductive AttrValue where
  | num (q : ℚ)
  | str (s : String)
  | boolean (b : Bool)
  | numList (l : List ℚ)
  | strList (l : List String)
deriving DecidableEq

/-- Attribute map, embedded as an association list (Python dict with
string keys; lookup returns the first binding). -/
abbrev AttrMap := List (String × AttrValue)

/-- Association-list lookup (Python `d.get(k)` / `k in d`). -/
def alist_get {β : Type} : List (String × β) → String → Option β
  | [], _ => none
  | (k', v) :: rest, k => if k' = k then some v else alist_get rest k

/-- Association-list update (Python `d[k] = v`). -/
def alist_set {β : Type} : List (String × β) → String → β → List (String × β)
  | [], k, v => [(k, v)]
  | (k', v') :: rest, k, v =>
    if k' = k then (k, v) :: rest else (k', v') :: alist_set rest k v

/-- Attribute lookup on an attribute map. -/
def getAttr (m : AttrMap) (k : String) : Option AttrValue :=
  alist_get m k

/-- Immutable entity state snapshot (Home Assistant `State`): entity id,
domain, discrete state token, attribute map and `last_changed` instant. -/
structure EntityState where
  entity_id : String
  domain : String
  state : String
  attributes : AttrMap
  last_changed : ℚ
deriving DecidableEq

/-- Domain of an entity id, `entity_id.split(".")[0]`: the characters
before the first dot. -/
def entityDomain (entity_id : String) : String :=
  (entity_id.toList.takeWhile (fun c => c ≠ '.')).asString

/-- `SimpleSyncCoordinator._progressive_attributes`: the static per-domain
table of progressive attributes. -/
def progressiveAttributes (domain : String) : List String :=
  if domain = "light" then ["brightness", "color_temp", "rgb_color", "xy_color", "hs_color"]
  else if domain = "cover" then ["position", "tilt_position"]
  else if domain = "climate" then ["temperature", "target_temp_high", "target_temp_low"]
  else if domain = "fan" then ["percentage", "speed"]
  else if domain = "media_player" then ["volume_level"]
  else if domain = "humidifier" then ["humidity"]
  else if domain = "water_heater" then ["temperature"]
  else []

/-- Key set of the `_progressive_attributes` dict
(`_is_progressive_device` tests `domain in self._progressive_attributes`). -/
def progressiveDomains : List String :=
  ["light", "cover", "climate", "fan", "media_player", "humidifier", "water_heater"]

/-- `_has_progressive_change` (both states present): some progressive
attribute of the new state's domain has a different value. -/
def has_progressive_change (old_state new_state : EntityState) : Bool :=
  (progressiveAttributes new_state.domain).any
    (fun attr => getAttr old_state.attributes attr ≠ getAttr new_state.attributes attr)

/-- Per-domain important-attribute table of `_check_important_attrs_changed`. -/
def importantAttrs (domain : String) : List String :=
  if domain = "light" then ["brightness", "color_temp", "rgb_color", "xy_color", "hs_color"]
  else if domain = "fan" then ["speed", "percentage", "preset_mode", "oscillating"]
  else if domain = "climate" then ["temperature", "target_temp_high", "target_temp_low", "hvac_mode", "fan_mode"]
  else if domain = "cover" then ["position", "tilt_position"]
  else if domain = "media_player" then ["volume_level", "source", "sound_mode"]
  else if domain = "humidifier" then ["humidity", "mode"]
  else if domain = "water_heater" then ["temperature", "operation_mode"]
  else []

/-- `_check_important_attrs_changed`: for the input helper domains the state
token itself carries the change (returns False early); otherwise some
important attribute differs between old and new (exact inequality). -/
def check_important_attrs_changed (new_state old_state : EntityState) : Bool :=
  if new_state.domain = "input_number" ∨ new_state.domain = "input_select" ∨
      new_state.domain = "input_text" then
    false
  else
    (importantAttrs new_state.domain).any
      (fun attr => getAttr old_state.attributes attr ≠ getAttr new_state.attributes attr)

/-- Extra light attributes compared at the end of `_is_significant_change`. -/
def lightExtraAttrs : List String :=
  ["brightness", "color_temp", "rgb_color", "xy_color", "hs_color", "effect", "white_value"]

/-- `_is_significant_change`: missing old state, forced sync, a discrete
state change, an important-attribute change (exact inequality), a
last-changed gap above 0.1 s, or (lights) any extra attribute change is
significant; otherwise not. -/
def is_significant_change (new_state : EntityState) (old_state : Option EntityState)
    (force_sync : Bool) : Bool :=
  match old_state with
  | none => true
  | some old_s =>
    if force_sync then true
    else if new_state.state ≠ old_s.state then true
    else if check_important_attrs_changed new_state old_s then true
    else if new_state.last_changed ≠ old_s.last_changed ∧
        |new_state.last_changed - old_s.last_changed| > 1/10 then true
    else if new_state.domain = "light" ∧ lightExtraAttrs.any
        (fun attr => getAttr old_s.attributes attr ≠ getAttr new_state.attributes attr) then true
    else false

/-- Brightness validation in `_validate_light_attributes`: a number in
[0, 255] is kept as `int(brightness)` (truncation; non-negative, so floor). -/
def validateBrightness : Option AttrValue → Option AttrValue
  | some (.num q) => if 0 ≤ q ∧ q ≤ 255 then some (.num (q.floor : ℚ)) else none
  | _ => none

/-- Color-temperature (mired) validation in `_validate_light_attributes`:
a number in [100, 1000] is kept as `int(color_temp)`; anything else,
including every mired ≤ 0, is dropped with a warning. -/
def validateColorTemp : Option AttrValue → Option AttrValue
  | some (.num q) => if 100 ≤ q ∧ q ≤ 1000 then some (.num (q.floor : ℚ)) else none
  | _ => none

/-- Hue-saturation validation: a two-element numeric list with hue in
[0, 360] and saturation in [0, 100] is kept (as floats). -/
def validateHsColor : Option AttrValue → Option AttrValue
  | some (.numList [h, s]) =>
    if 0 ≤ h ∧ h ≤ 360 ∧ 0 ≤ s ∧ s ≤ 100 then some (.numList [h, s]) else none
  | _ => none

/-- RGB validation: a three-element numeric list with components in
[0, 255] is kept with each component truncated to an integer. -/
def validateRgbColor : Option AttrValue → Option AttrValue
  | some (.numList [r, g, b]) =>
    if (0 ≤ r ∧ r ≤ 255) ∧ (0 ≤ g ∧ g ≤ 255) ∧ (0 ≤ b ∧ b ≤ 255) then
      some (.numList [(r.floor : ℚ), (g.floor : ℚ), (b.floor : ℚ)])
    else none
  | _ => none

/-- XY validation: a two-element numeric list with components in [0, 1]. -/
def validateXyColor : Option AttrValue → Option AttrValue
  | some (.numList [x, y]) =>
    if (0 ≤ x ∧ x ≤ 1) ∧ (0 ≤ y ∧ y ≤ 1) then some (.numList [x, y]) else none
  | _ => none

/-- Optional dict entry: one binding when the validated value survived. -/
def optEntry (k : String) : Option AttrValue → AttrMap
  | some v => [(k, v)]
  | none => []

/-- `_validate_light_attributes`: builds the validated dict in source
insertion order brightness, color_temp, hs_color, rgb_color, xy_color. -/
def validate_light_attributes (attributes : AttrMap) : AttrMap :=
  optEntry "brightness" (validateBrightness (getAttr attributes "brightness"))
    ++ optEntry "color_temp" (validateColorTemp (getAttr attributes "color_temp"))
    ++ optEntry "hs_color" (validateHsColor (getAttr attributes "hs_color"))
    ++ optEntry "rgb_color" (validateRgbColor (getAttr attributes "rgb_color"))
    ++ optEntry "xy_color" (validateXyColor (getAttr attributes "xy_color"))

/-- The color-model selection shared by `_immediate_sync` and
`_progressive_light_sync`: the `if "hs_color" ... elif "rgb_color" ...
elif "xy_color" ... elif "color_temp"` chain picks one color parameter. -/
def selectColorAttr (validated : AttrMap) : AttrMap :=
  match getAttr validated "hs_color" with
  | some v => [("hs_color", v)]
  | none =>
    match getAttr validated "rgb_color" with
    | some v => [("rgb_color", v)]
    | none =>
      match getAttr validated "xy_color" with
      | some v => [("xy_color", v)]
      | none =>
        match getAttr validated "color_temp" with
        | some v => [("color_temp", v)]
        | none => []

/-- Service data built by `_immediate_sync` for a light source in state
"on": entity id, the validated brightness if any, then exactly the color
attribute chosen by the priority chain. -/
def immediate_sync_light_on_data (target_entity_id : String) (src_attrs : AttrMap) : AttrMap :=
  let validated := validate_light_attributes src_attrs
  [("entity_id", AttrValue.str target_entity_id)]
    ++ optEntry "brightness" (getAttr validated "brightness")
    ++ selectColorAttr validated

/-- Service data of the color step of `_progressive_light_sync`. -/
def progressive_light_color_data (target_entity_id : String) (validated : AttrMap) : AttrMap :=
  [("entity_id", AttrValue.str target_entity_id)] ++ selectColorAttr validated

/-- The four mutually conflicting color-model parameter names. -/
def colorModelKeys : List String := ["hs_color", "rgb_color", "xy_color", "color_temp"]

/-- Number of color-model parameters present in a service-data map. -/
def colorParamCount (m : AttrMap) : ℕ :=
  (colorModelKeys.filter (fun k => (getAttr m k).isSome)).length

/-- Kelvin value of the fallback branch of `_sync_color_temperature`:
`int(1000000 / color_temp)` on the validated positive mired value
(truncating division; no clamping is performed anywhere). -/
def sync_color_temperature_kelvin (color_temp : ℕ) : ℕ :=
  1000000 / color_temp

/-- A requested external action: `hass.services.async_call(domain, service,
service_data)`. The engine never owns the actuation mechanism. -/
structure ServiceCall where
  domain : String
  service : String
  data : AttrMap
deriving DecidableEq

/-- Dict comprehension `{k: v for k, v in attributes.items() if k in keys}`. -/
def filterAttrs (attributes : AttrMap) (keys : List String) : AttrMap :=
  attributes.filter (fun kv => keys.contains kv.1)

/-- Numeric parse standing for Python `float(state)` on the integer-valued
state strings the input_number branch receives; a non-numeric state raises
there and is caught by `_sync_to_entity`'s catch-all (no call recorded). -/
def parseFloat (s : String) : Option ℚ :=
  s.toInt?.map (fun n => (n : ℚ))

/-- Calls issued by `_progressive_light_sync`: a brightness step when a
validated brightness exists, then a color step when the priority chain
selected a color attribute. -/
def progressive_light_sync_calls (target_entity_id : String) (validated : AttrMap) :
    List ServiceCall :=
  let base : AttrMap := [("entity_id", AttrValue.str target_entity_id)]
  (match getAttr validated "brightness" with
    | some b => [⟨"light", "turn_on", base ++ [("brightness", b)]⟩]
    | none => [])
    ++ (match selectColorAttr validated with
      | [] => []
      | colorAttrs => [⟨"light", "turn_on", base ++ colorAttrs⟩])

/-- Calls issued by `_sync_light_attributes`: with no surviving validated
attribute only the bare turn_on, otherwise the progressive steps. -/
def sync_light_attributes_calls (source : EntityState) (target_entity_id : String) :
    List ServiceCall :=
  let validated := validate_light_attributes source.attributes
  if validated = [] then
    [⟨"light", "turn_on", [("entity_id", AttrValue.str target_entity_id)]⟩]
  else
    progressive_light_sync_calls target_entity_id validated

/-- `_perfect_sync`: the same-domain per-domain field table. Returns the
list of external actions requested (in order); the final else branch logs
"unsupported domain" and requests nothing. -/
def perfect_sync (source : EntityState) (target_entity_id : String) : List ServiceCall :=
  let sd : AttrMap := [("entity_id", AttrValue.str target_entity_id)]
  if source.domain = "light" then
    if source.state = "on" then sync_light_attributes_calls source target_entity_id
    else [⟨"light", "turn_off", sd⟩]
  else if source.domain = "switch" then
    [⟨"switch", if source.state = "on" then "turn_on" else "turn_off", sd⟩]
  else if source.domain = "cover" then
    if source.state = "open" then [⟨"cover", "open_cover", sd⟩]
    else if source.state = "closed" then [⟨"cover", "close_cover", sd⟩]
    else
      match getAttr source.attributes "position" with
      | some p => [⟨"cover", "set_cover_position", sd ++ [("position", p)]⟩]
      | none => []
  else if source.domain = "fan" then
    if source.state = "on" then
      [⟨"fan", "turn_on",
        sd ++ filterAttrs source.attributes ["speed", "percentage", "preset_mode", "oscillating"]⟩]
    else [⟨"fan", "turn_off", sd⟩]
  else if source.domain = "climate" then
    let attrs := filterAttrs source.attributes
      ["temperature", "target_temp_high", "target_temp_low", "hvac_mode", "fan_mode", "preset_mode"]
    let sd2 := sd ++ attrs
    (if (getAttr source.attributes "hvac_mode").isSome then
      [⟨"climate", "set_hvac_mode", sd2⟩] else [])
      ++ (if (getAttr source.attributes "temperature").isSome then
        [⟨"climate", "set_temperature", sd2⟩] else [])
  else if source.domain = "humidifier" then
    if source.state = "on" then
      [⟨"humidifier", "turn_on", sd ++ filterAttrs source.attributes ["humidity", "mode"]⟩]
    else [⟨"humidifier", "turn_off", sd⟩]
  else if source.domain = "water_heater" then
    let attrs := filterAttrs source.attributes ["temperature", "operation_mode"]
    let sd2 := sd ++ attrs
    (if (getAttr source.attributes "temperature").isSome then
      [⟨"water_heater", "set_temperature", sd2⟩] else [])
      ++ (if (getAttr source.attributes "operation_mode").isSome then
        [⟨"water_heater", "set_operation_mode", sd2⟩] else [])
  else if source.domain = "vacuum" then
    if source.state = "cleaning" then [⟨"vacuum", "start", sd⟩]
    else if source.state = "docked" then [⟨"vacuum", "return_to_base", sd⟩]
    else if source.state = "paused" then [⟨"vacuum", "pause", sd⟩]
    else []
  else if source.domain = "media_player" then
    (if source.state = "playing" then [⟨"media_player", "media_play", sd⟩]
      else if source.state = "paused" then [⟨"media_player", "media_pause", sd⟩]
      else if source.state = "off" then [⟨"media_player", "turn_off", sd⟩]
      else [])
      ++ (match getAttr source.attributes "volume_level" with
        | some v => [⟨"media_player", "volume_set", sd ++ [("volume_level", v)]⟩]
        | none => [])
  else if source.domain = "scene" then [⟨"scene", "turn_on", sd⟩]
  else if source.domain = "script" then [⟨"script", "turn_on", sd⟩]
  else if source.domain = "input_boolean" then
    [⟨"input_boolean", if source.state = "on" then "turn_on" else "turn_off", sd⟩]
  else if source.domain = "input_select" then
    [⟨"input_select", "select_option", sd ++ [("option", AttrValue.str source.state)]⟩]
  else if source.domain = "input_number" then
    match parseFloat source.state with
    | some q => [⟨"input_number", "set_value", sd ++ [("value", AttrValue.num q)]⟩]
    | none => []
  else if source.domain = "input_text" then
    [⟨"input_text", "set_value", sd ++ [("value", AttrValue.str source.state)]⟩]
  else []

/-- State tokens `_basic_sync` (and the generic `_immediate_sync` branch)
treat as "on". -/
def onStates : List String :=
  ["on", "open", "playing", "cleaning", "heating", "cooling", "auto", "heat", "cool"]

/-- `_basic_sync`: reduce the source state to a boolean active projection
and map it onto the target domain; the final else branch logs
"unsupported target domain" and requests nothing. -/
def basic_sync (source : EntityState) (target_entity_id : String)
    (target_state : Option EntityState) : List ServiceCall :=
  let target_domain := entityDomain target_entity_id
  let sd : AttrMap := [("entity_id", AttrValue.str target_entity_id)]
  let is_on := onStates.contains source.state
  if target_domain ∈ (["light", "switch", "fan", "humidifier", "input_boolean"] : List String) then
    [⟨target_domain, if is_on then "turn_on" else "turn_off", sd⟩]
  else if target_domain = "cover" then
    [⟨"cover", if is_on then "open_cover" else "close_cover", sd⟩]
  else if target_domain = "climate" then
    [⟨"climate", "set_hvac_mode", sd ++ [("hvac_mode", AttrValue.str (if is_on then "heat" else "off"))]⟩]
  else if target_domain = "water_heater" then
    [⟨"water_heater", "set_operation_mode",
      sd ++ [("operation_mode", AttrValue.str (if is_on then "eco" else "off"))]⟩]
  else if target_domain = "vacuum" then
    if is_on then [⟨"vacuum", "start", sd⟩] else [⟨"vacuum", "return_to_base", sd⟩]
  else if target_domain = "media_player" then
    if is_on then [⟨"media_player", "media_play", sd⟩] else [⟨"media_player", "media_pause", sd⟩]
  else if target_domain = "scene" ∨ target_domain = "script" then
    if is_on then [⟨target_domain, "turn_on", sd⟩] else []
  else if target_domain = "input_select" then
    match target_state with
    | some ts =>
      match getAttr ts.attributes "options" with
      | some (.strList (o :: rest)) =>
        [⟨"input_select", "select_option",
          sd ++ [("option", AttrValue.str (if is_on then o else (o :: rest).getLastD ""))]⟩]
      | _ => []
    | none => []
  else if target_domain = "input_number" then
    match target_state with
    | some ts =>
      let max_val := (getAttr ts.attributes "max").getD (AttrValue.num 100)
      let min_val := (getAttr ts.attributes "min").getD (AttrValue.num 0)
      [⟨"input_number", "set_value", sd ++ [("value", if is_on then max_val else min_val)]⟩]
    | none => []
  else []

/-- `_sync_to_entity` (happy-path dispatch): a missing target entity is a
logged no-op; perfect mode runs the per-domain table for same-domain pairs
and falls back to basic sync across domains; basic mode always basic-syncs. -/
def sync_to_entity (sync_mode : String) (source : EntityState) (target_entity_id : String)
    (target_state : Option EntityState) : List ServiceCall :=
  match target_state with
  | none => []
  | some _ =>
    if sync_mode = "perfect" then
      if source.domain = entityDomain target_entity_id then
        perfect_sync source target_entity_id
      else basic_sync source target_entity_id target_state
    else basic_sync source target_entity_id target_state

/-- Per-domain important-attribute table of `_is_duplicate_state`
(only light, fan, climate and cover carry attribute fingerprints). -/
def dupImportantAttrs (domain : String) : List String :=
  if domain = "light" then ["brightness", "color_temp", "rgb_color", "xy_color", "hs_color"]
  else if domain = "fan" then ["speed", "percentage", "preset_mode", "oscillating"]
  else if domain = "climate" then ["temperature", "target_temp_high", "target_temp_low", "hvac_mode", "fan_mode"]
  else if domain = "cover" then ["position", "tilt_position"]
  else []

/-- State fingerprint of `_is_duplicate_state`: the discrete state token
together with the tuple of important-attribute values whose hash the
source embeds in the fingerprint string. -/
structure Fingerprint where
  state : String
  importantValues : List (Option AttrValue)
deriving DecidableEq

/-- Fingerprint of a state snapshot. -/
def stateFingerprint (s : EntityState) : Fingerprint :=
  ⟨s.state, (dupImportantAttrs s.domain).map (getAttr s.attributes)⟩

/-- One `_state_cache` entry: recorded fingerprint and timestamp. -/
structure CacheEntry where
  fingerprint : Fingerprint
  timestamp : ℚ
deriving DecidableEq

/-- `_is_duplicate_state`: under the key `entity_id + "_" + state`, an
unexpired (strictly under 1.0 s old) cached entry with an identical
fingerprint makes the state a duplicate; otherwise the entry is
(re)recorded at the current time and the state is not a duplicate.
(The size-bounded cache cleaning is outside this model.) -/
def is_duplicate_state (cache : List (String × CacheEntry)) (entity_id : String)
    (s : EntityState) (now : ℚ) : Bool × List (String × CacheEntry) :=
  let cache_key := entity_id ++ "_" ++ s.state
  let fp := stateFingerprint s
  match alist_get cache cache_key with
  | some e =>
    if e.fingerprint = fp ∧ now - e.timestamp < 1 then (true, cache)
    else (false, alist_set cache cache_key ⟨fp, now⟩)
  | none => (false, alist_set cache cache_key ⟨fp, now⟩)

/-- Mutable coordinator fields consulted by one change-handler run. -/
structure CoordState where
  sync_in_progress : Bool
  last_sync_times : List (String × ℚ)
  state_cache : List (String × CacheEntry)
deriving DecidableEq

/-- Outcome of a change-handler run: suppressed (an early return), the
progressive cancel-and-replace path, or the instant sync path. -/
inductive SyncDecision where
  | suppressed
  | progressiveSync (source_id target_id : String) (payload : EntityState)
  | instantSync (source_id target_id : String) (payload : EntityState)
deriving DecidableEq

/-- `_sync_cooldown` (150 ms). -/
def sync_cooldown : ℚ := 15/100

/-- `_should_batch_sync`: more than five recorded syncs within the last
second enable the longer cooldown. -/
def should_batch_sync (last_sync_times : List (String × ℚ)) (now : ℚ) : Bool :=
  5 < ((last_sync_times.map Prod.snd).filter (fun t => now - t < 1)).length

/-- `_handle_entity1_change` / `_handle_entity2_change` (one parameterized
handler; the two source handlers are textual copies differing only in the
direction): skip while a sync is in progress or on incomplete event data;
a progressive-attribute change takes the progressive path; otherwise the
change must be significant, not a duplicate, and past the per-direction
cooldown before the instant sync runs and the direction's timestamp is
recorded. -/
def handle_entity_change (c : CoordState) (source_id target_id : String)
    (old_state new_state : Option EntityState) (now : ℚ) : CoordState × SyncDecision :=
  if c.sync_in_progress then (c, .suppressed)
  else
    match old_state, new_state with
    | some old_s, some new_s =>
      if progressiveDomains.contains new_s.domain ∧ has_progressive_change old_s new_s then
        (c, .progressiveSync source_id target_id new_s)
      else if ¬ is_significant_change new_s (some old_s) false then (c, .suppressed)
      else
        let dup := is_duplicate_state c.state_cache source_id new_s now
        let c1 : CoordState := { c with state_cache := dup.2 }
        if dup.1 then (c1, .suppressed)
        else
          let sync_key := source_id ++ "->" ++ target_id
          let effective_cooldown :=
            if should_batch_sync c1.last_sync_times now then sync_cooldown * (3/2)
            else sync_cooldown
          match alist_get c1.last_sync_times sync_key with
          | some t_last =>
            if now - t_last < effective_cooldown then (c1, .suppressed)
            else
              ({ c1 with last_sync_times := alist_set c1.last_sync_times sync_key now },
                .instantSync source_id target_id new_s)
          | none =>
            ({ c1 with last_sync_times := alist_set c1.last_sync_times sync_key now },
              .instantSync source_id target_id new_s)
    | _, _ => (c, .suppressed)

/-- One `_progressive_sync_tasks[sync_key]` task: the captured newest
state it will mirror, its cancellation flag and completion flag. -/
structure SyncTask where
  target_payload : EntityState
  cancelled : Bool
  done : Bool
deriving DecidableEq

/-- One `_handle_progressive_sync` run for a fixed direction key: every
previously stored task that is not done is cancelled first, then a fresh
task carrying the newest state is started. -/
def progressiveStep (tasks : List SyncTask) (new_state : EntityState) : List SyncTask :=
  tasks.map (fun t => if t.done then t else { t with cancelled := true })
    ++ [⟨new_state, false, false⟩]

/-- A rapid burst of progressive events on one direction: the events are
handled in order, each one arriving before any pending task completed
(within the action timeout no task reaches done). -/
def progressiveBurst (events : List EntityState) : List SyncTask :=
  events.foldl progressiveStep []

/-- The states whose mirror action actually reaches the target: a
cancelled task's `_immediate_sync` is aborted by `CancelledError`. -/
def deliveredPayloads (tasks : List SyncTask) : List EntityState :=
  (tasks.filter (fun t => !t.cancelled)).map (fun t => t.target_payload)

/-- Failure kinds raised by the external actuation interface, matching the
handler clauses of `_sync_to_entity` (`ServiceNotFound`,
`HomeAssistantError`, bare `Exception`). -/
inductive SyncError where
  | serviceNotFound
  | homeAssistantError
  | unknownError
deriving DecidableEq

/-- Run the requested calls against an external actuation interface,
stopping at (and propagating) its first failure, as the `raise` in
`_perfect_sync` / `_basic_sync` does. -/
def runCalls (svc : ServiceCall → Except SyncError Unit) : List ServiceCall → Except SyncError Unit
  | [] => .ok ()
  | c :: rest =>
    match svc c with
    | .ok _ => runCalls svc rest
    | .error e => .error e

/-- Result of `_sync_to_entity` as seen by its caller: the missing-target
check returns early, and the try/except around the dispatch catches
`ServiceNotFound`, `HomeAssistantError` and every other exception, logs
it, and returns normally. -/
def sync_to_entity_run (svc : ServiceCall → Except SyncError Unit) (sync_mode : String)
    (source : EntityState) (target_entity_id : String) (target_state : Option EntityState) :
    Except SyncError Unit :=
  match target_state with
  | none => .ok ()
  | some _ =>
    match runCalls svc (sync_to_entity sync_mode source target_entity_id target_state) with
    | .ok _ => .ok ()
    | .error _ => .ok ()

/-- Modelled from the spec: the per-link sync statistics. The repository's
`src/ha_two_way_sync` package coordinator (its `__init__.py`, from which
`sensor.py` imports `_sync_coordinators` and whose `_sync_stats` dict
`TwoWaySyncStatsSensor` reads) is not among the provided sources; its
counters are modelled from the spec's SyncStats ("attempts, succeeded,
failed") and the sensor's keys `total_syncs`, `successful_syncs`,
`failed_syncs`. -/
structure SyncStats where
  total_syncs : ℕ
  successful_syncs : ℕ
  failed_syncs : ℕ
deriving DecidableEq

/-- Modelled from the spec: the Sync Executor "invokes the external
actuation interface ... and updates SyncStats"; "every path is caught,
logged, reflected in SyncStats". A missing target or a failing external
call counts the attempt as failed; a successful run counts it as
succeeded; every outcome returns normally. -/
def sync_with_stats (svc : ServiceCall → Except SyncError Unit) (sync_mode : String)
    (source : EntityState) (target_entity_id : String) (target_state : Option EntityState)
    (stats : SyncStats) : SyncStats × Except SyncError Unit :=
  match target_state with
  | none =>
    ({ stats with
        total_syncs := stats.total_syncs + 1
        failed_syncs := stats.failed_syncs + 1 }, .ok ())
  | some _ =>
    match runCalls svc (sync_to_entity sync_mode source target_entity_id target_state) with
    | .ok _ =>
      ({ stats with
          total_syncs := stats.total_syncs + 1
          successful_syncs := stats.successful_syncs + 1 }, .ok ())
    | .error _ =>
      ({ stats with
          total_syncs := stats.total_syncs + 1
          failed_syncs := stats.failed_syncs + 1 }, .ok ())

/-- Domains dispatched by a `_perfect_sync` branch (everything else hits
its logged no-op else branch). -/
def perfectSupportedDomains : List String :=
  ["light", "switch", "cover", "fan", "climate", "humidifier", "water_heater", "vacuum",
    "media_player", "scene", "script", "input_boolean", "input_select", "input_number",
    "input_text"]

/-- Target domains dispatched by a `_basic_sync` branch (everything else
hits its logged no-op else branch). -/
def basicSupportedTargets : List String :=
  ["light", "switch", "fan", "humidifier", "input_boolean", "cover", "climate",
    "water_heater", "vacuum", "media_player", "scene", "script", "input_select",
    "input_number"]

/- Concrete states used by counterexamples and witnesses. -/

/-- A light that is on at brightness 100. -/
def lightBri100 : EntityState := ⟨"light.a", "light", "on", [("brightness", .num 100)], 0⟩

/-- The same light one brightness unit later (delta 1 < 5). -/
def lightBri101 : EntityState := ⟨"light.a", "light", "on", [("brightness", .num 101)], 0⟩

/-- The same light five brightness units later (delta exactly 5). -/
def lightBri105 : EntityState := ⟨"light.a", "light", "on", [("brightness", .num 105)], 0⟩

/-- A light source carrying an out-of-range hue-saturation pair together
with a valid color temperature. -/
def hsOutOfRangeAttrs : AttrMap :=
  [("hs_color", .numList [400, 50]), ("color_temp", .num 300)]

/-- A light source carrying a valid hue-saturation pair together with a
valid color temperature. -/
def hsAndCtAttrs : AttrMap :=
  [("hs_color", .numList [30, 80]), ("color_temp", .num 300)]

/-- Source switch, on. -/
def switchOnA : EntityState := ⟨"switch.a", "switch", "on", [], 0⟩

/-- Target switch already on: equal discrete state and attributes. -/
def switchOnB : EntityState := ⟨"switch.b", "switch", "on", [], 0⟩

/-- Target switch, off. -/
def switchOffB : EntityState := ⟨"switch.b", "switch", "off", [], 0⟩

/-- Entity B before the echo confirmation of the A→B mirror. -/
def echoOldB : EntityState := ⟨"switch.b", "switch", "off", [], 0⟩

/-- The echo confirmation on entity B, 50 ms after the A→B mirror. -/
def echoNewB : EntityState := ⟨"switch.b", "switch", "on", [], 1/20⟩

/-- Coordinator state right after the A→B mirror completed at time 0: the
`_sync_in_progress` flag is already cleared (it is reset 10 ms afterwards)
and the forward direction's timestamp is recorded. -/
def coordAfterForward : CoordState := ⟨false, [("switch.a->switch.b", 0)], []⟩

/-- Cover mid-ramp positions of a rapid progressive burst. -/
def coverPos42 : EntityState := ⟨"cover.a", "cover", "open", [("position", .num 42)], 0⟩

/-- Second burst event. -/
def coverPos45 : EntityState := ⟨"cover.a", "cover", "open", [("position", .num 45)], 1/100⟩

/-- Third (latest) burst event. -/
def coverPos50 : EntityState := ⟨"cover.a", "cover", "open", [("position", .num 50)], 1/50⟩

/-- A light turned off, no progressive attributes set. -/
def lightOffPlain : EntityState := ⟨"light.a", "light", "off", [], 0⟩

/-- The same light turned on with unchanged (absent) progressive
attributes: a pure discrete-state flip on a progressive-capable domain. -/
def lightOnPlain : EntityState := ⟨"light.a", "light", "on", [], 1⟩

/-- An entity of a domain outside every supported table. -/
def cameraState : EntityState := ⟨"camera.x", "camera", "recording", [], 0⟩

/-- An external actuation interface whose every invocation fails with
ServiceNotFound. -/
def alwaysFailSvc : ServiceCall → Except SyncError Unit :=
  fun _ => .error .serviceNotFound

/-! Helper lemmas. -/

theorem alist_get_set_self {β : Type} (l : List (String × β)) (k : String) (v : β) :
    alist_get (alist_set l k v) k = some v := by
  induction l with
  | nil => simp [alist_get, alist_set]
  | cons kv rest ih =>
    obtain ⟨k', v'⟩ := kv
    by_cases h : k' = k <;> simp [alist_get, alist_set, h, ih]

theorem getAttr_append (m1 m2 : AttrMap) (k : String) :
    getAttr (m1 ++ m2) k = (getAttr m1 k).or (getAttr m2 k) := by
  induction m1 with
  | nil => simp [getAttr, alist_get]
  | cons kv rest ih =>
    obtain ⟨k', v⟩ := kv
    by_cases h : k' = k <;> simp_all [getAttr, alist_get, h]

theorem getAttr_optEntry_same (k : String) (v : Option AttrValue) :
    getAttr (optEntry k v) k = v := by
  cases v <;> simp [optEntry, getAttr, alist_get]

theorem getAttr_optEntry_ne (k k' : String) (v : Option AttrValue) (h : ¬ k = k') :
    getAttr (optEntry k v) k' = none := by
  cases v <;> simp [optEntry, getAttr, alist_get, h]

theorem getAttr_validate_brightness (a : AttrMap) :
    getAttr (validate_light_attributes a) "brightness"
      = validateBrightness (getAttr a "brightness") := by
  unfold validate_light_attributes
  simp [getAttr_append, getAttr_optEntry_same, getAttr_optEntry_ne]

theorem getAttr_validate_color_temp (a : AttrMap) :
    getAttr (validate_light_attributes a) "color_temp"
      = validateColorTemp (getAttr a "color_temp") := by
  unfold validate_light_attributes
  simp [getAttr_append, getAttr_optEntry_same, getAttr_optEntry_ne]

theorem getAttr_validate_hs (a : AttrMap) :
    getAttr (validate_light_attributes a) "hs_color"
      = validateHsColor (getAttr a "hs_color") := by
  unfold validate_light_attributes
  simp [getAttr_append, getAttr_optEntry_same, getAttr_optEntry_ne]

theorem colorParamCount_selectColorAttr (v : AttrMap) :
    colorParamCount (selectColorAttr v) ≤ 1 := by
  unfold selectColorAttr
  cases getAttr v "hs_color" with
  | some val => simp [colorParamCount, colorModelKeys, getAttr, alist_get]
  | none =>
    cases getAttr v "rgb_color" with
    | some val => simp [colorParamCount, colorModelKeys, getAttr, alist_get]
    | none =>
      cases getAttr v "xy_color" with
      | some val => simp [colorParamCount, colorModelKeys, getAttr, alist_get]
      | none =>
        cases getAttr v "color_temp" with
        | some val => simp [colorParamCount, colorModelKeys, getAttr, alist_get]
        | none => simp [colorParamCount, colorModelKeys, getAttr, alist_get]

theorem getAttr_cons (k' k : String) (v : AttrValue) (rest : AttrMap) :
    getAttr ((k', v) :: rest) k = if k' = k then some v else getAttr rest k := rfl

theorem getAttr_immediate_colorKey (t : String) (attrs : AttrMap) (k : String)
    (hk : k ∈ colorModelKeys) :
    getAttr (immediate_sync_light_on_data t attrs) k
      = getAttr (selectColorAttr (validate_light_attributes attrs)) k := by
  fin_cases hk <;>
    simp [immediate_sync_light_on_data, getAttr_cons, getAttr_append, getAttr_optEntry_ne]

theorem colorParamCount_immediate (t : String) (attrs : AttrMap) :
    colorParamCount (immediate_sync_light_on_data t attrs)
      = colorParamCount (selectColorAttr (validate_light_attributes attrs)) := by
  unfold colorParamCount
  have h : ∀ k ∈ colorModelKeys,
      ((getAttr (immediate_sync_light_on_data t attrs) k).isSome : Bool)
        = (getAttr (selectColorAttr (validate_light_attributes attrs)) k).isSome := by
    intro k hk
    rw [getAttr_immediate_colorKey t attrs k hk]
  rw [List.filter_congr h]

theorem getAttr_progressive_colorKey (t : String) (validated : AttrMap) (k : String)
    (hk : k ∈ colorModelKeys) :
    getAttr (progressive_light_color_data t validated) k
      = getAttr (selectColorAttr validated) k := by
  fin_cases hk <;>
    simp [progressive_light_color_data, getAttr_cons, getAttr_append]

theorem colorParamCount_progressive (t : String) (validated : AttrMap) :
    colorParamCount (progressive_light_color_data t validated)
      = colorParamCount (selectColorAttr validated) := by
  unfold colorParamCount
  have h : ∀ k ∈ colorModelKeys,
      ((getAttr (progressive_light_color_data t validated) k).isSome : Bool)
        = (getAttr (selectColorAttr validated) k).isSome := by
    intro k hk
    rw [getAttr_progressive_colorKey t validated k hk]
  rw [List.filter_congr h]

theorem progressiveStep_done_false (tasks : List SyncTask) (s : EntityState)
    (h : ∀ t ∈ tasks, t.done = false) :
    ∀ t ∈ progressiveStep tasks s, t.done = false := by
  intro t ht
  simp only [progressiveStep, List.mem_append, List.mem_map, List.mem_singleton] at ht
  rcases ht with ⟨u, hu, rfl⟩ | rfl
  · have := h u hu
    by_cases hd : u.done <;> simp [hd] at this ⊢
  · rfl

theorem deliveredPayloads_progressiveStep (tasks : List SyncTask) (s : EntityState)
    (h : ∀ t ∈ tasks, t.done = false) :
    deliveredPayloads (progressiveStep tasks s) = [s] := by
  unfold deliveredPayloads progressiveStep
  rw [List.filter_append]
  have h2 : List.filter (fun t => !t.cancelled)
      (tasks.map (fun t => if t.done then t else { t with cancelled := true })) = [] := by
    rw [List.filter_eq_nil_iff]
    intro t ht
    obtain ⟨u, hu, rfl⟩ := List.mem_map.mp ht
    simp [h u hu]
  rw [h2]
  simp

theorem delivered_foldl (events : List EntityState) (init : List SyncTask)
    (hinit : ∀ t ∈ init, t.done = false) (h : events ≠ []) :
    deliveredPayloads (events.foldl progressiveStep init) = [events.getLast h] := by
  induction events generalizing init with
  | nil => exact absurd rfl h
  | cons e rest ih =>
    cases rest with
    | nil =>
      simp only [List.foldl_cons, List.foldl_nil, List.getLast_singleton]
      exact deliveredPayloads_progressiveStep init e hinit
    | cons e2 rest2 =>
      have hne : (e2 :: rest2) ≠ [] := by simp
      have hstep := progressiveStep_done_false init e hinit
      rw [List.foldl_cons]
      rw [ih (progressiveStep init e) hstep hne]
      rw [List.getLast_cons hne]

theorem foldl_progressiveStep_length (events : List EntityState) (init : List SyncTask) :
    (events.foldl progressiveStep init).length = init.length + events.length := by
  induction events generalizing init with
  | nil => simp
  | cons e rest ih =>
    simp only [List.foldl_cons, List.length_cons]
    rw [ih]
    simp [progressiveStep]
    omega

theorem is_significant_of_state_ne (new_s old_s : EntityState)
    (h : ¬ new_s.state = old_s.state) :
    is_significant_change new_s (some old_s) false = true := by
  simp [is_significant_change, h]

theorem contains_of_has_progressive (old_s new_s : EntityState)
    (h : has_progressive_change old_s new_s = true) :
    progressiveDomains.contains new_s.domain = true := by
  have hne : progressiveAttributes new_s.domain ≠ [] := by
    intro hnil
    rw [has_progressive_change, hnil] at h
    simp at h
  unfold progressiveAttributes at hne
  split_ifs at hne with h1 h2 h3 h4 h5 h6 h7
  · rw [h1]; decide
  · rw [h2]; decide
  · rw [h3]; decide
  · rw [h4]; decide
  · rw [h5]; decide
  · rw [h6]; decide
  · rw [h7]; decide
  · exact absurd rfl hne

theorem is_duplicate_state_records (cache : List (String × CacheEntry)) (entity_id : String)
    (s : EntityState) (now : ℚ) (h : (is_duplicate_state cache entity_id s now).1 = false) :
    alist_get (is_duplicate_state cache entity_id s now).2 (entity_id ++ "_" ++ s.state)
      = some ⟨stateFingerprint s, now⟩ := by
  unfold is_duplicate_state at h ⊢
  cases hc : alist_get cache (entity_id ++ "_" ++ s.state) with
  | none => simp [hc, alist_get_set_self]
  | some e =>
    simp only [hc] at h ⊢
    by_cases hcond : e.fingerprint = stateFingerprint s ∧ now - e.timestamp < 1
    · simp [hcond] at h
    · simp [hcond, alist_get_set_self]

/-! Claim theorems. -/

/-- C1: For every rapid burst of N ≥ 1 progressive change events on one
direction (each arriving before a pending task completed, i.e. within the
action timeout), `_handle_progressive_sync` cancels every not-yet-done
stored task before starting a fresh task with the newest state, so
exactly one mirror action reaches the target, carrying the parameters of
the Nth (latest) event. -/
theorem C1_supersession (events : List EntityState) (h : events ≠ []) :
    deliveredPayloads (progressiveBurst events) = [events.getLast h] ∧
    (progressiveBurst events).length = events.length := by
  constructor
  · exact delivered_foldl events [] (by intro t ht; simp at ht) h
  · simpa using foldl_progressiveStep_length events []

/-- Witness for C1: a cover-position burst 42, 45, 50 delivers exactly the
mirror action for position 50. -/
theorem C1_supersession_witness :
    deliveredPayloads (progressiveBurst [coverPos42, coverPos45, coverPos50]) = [coverPos50] ∧
    (progressiveBurst [coverPos42, coverPos45, coverPos50]).length = 3 := by
  have h := C1_supersession [coverPos42, coverPos45, coverPos50] (by simp)
  simpa using h

/-- C2 counterexample: the claim predicts that a brightness delta strictly
below 5 units with equal discrete state is Insignificant; the classifier
classifies a delta of 1 unit (100 → 101) as Significant. -/
theorem C2_counterexample :
    is_significant_change lightBri101 (some lightBri100) false = true ∧
    lightBri101.state = lightBri100.state ∧ ((101 : ℚ) - 100 < 5) := by
  refine ⟨?_, rfl, by norm_num⟩
  simp [is_significant_change, check_important_attrs_changed, importantAttrs,
    getAttr, alist_get, lightBri100, lightBri101]

/-- C2 (amended): the classifier compares attributes by exact equality,
with no tolerance table: with equal discrete state, equal last-changed
time and equal attribute maps the change is Insignificant, while any
brightness difference on a light — a delta of 5 units, but equally a
delta of 1 — is Significant. -/
theorem C2_exact_equality_classifier :
    (∀ old_s new_s : EntityState, new_s.state = old_s.state →
        new_s.last_changed = old_s.last_changed → new_s.attributes = old_s.attributes →
        is_significant_change new_s (some old_s) false = false) ∧
    (∀ old_s new_s : EntityState, new_s.domain = "light" →
        getAttr new_s.attributes "brightness" ≠ getAttr old_s.attributes "brightness" →
        is_significant_change new_s (some old_s) false = true) := by
  constructor
  · intro old_s new_s hstate htime hattr
    simp [is_significant_change, check_important_attrs_changed, hstate, htime, hattr]
  · intro old_s new_s hdom hb
    have himp : check_important_attrs_changed new_s old_s = true := by
      unfold check_important_attrs_changed
      rw [if_neg, List.any_eq_true]
      · exact ⟨"brightness", by rw [hdom]; simp [importantAttrs],
          by simpa using fun hcontra => hb hcontra.symm⟩
      · rw [hdom]; simp
    unfold is_significant_change
    by_cases hs : new_s.state ≠ old_s.state
    · simp [hs]
    · simp [hs, himp]

/-- Witness for C2 (amended): an unchanged light snapshot is
Insignificant; the 100 → 105 brightness step (delta exactly 5) is
Significant. -/
theorem C2_exact_equality_classifier_witness :
    is_significant_change lightBri100 (some lightBri100) false = false ∧
    is_significant_change lightBri105 (some lightBri100) false = true := by
  constructor
  · exact C2_exact_equality_classifier.1 lightBri100 lightBri100 rfl rfl rfl
  · exact C2_exact_equality_classifier.2 lightBri100 lightBri105 rfl
      (by simp [lightBri100, lightBri105, getAttr, alist_get])

/-- C3 counterexample: a light source carrying both a hue-saturation pair
and a color temperature, where the hue is out of validation range
(hue 400): the claim predicts the action carries hue-saturation only, but
the emitted action drops the invalid hue-saturation and carries the
color temperature. -/
theorem C3_counterexample :
    (getAttr hsOutOfRangeAttrs "hs_color").isSome = true ∧
    (getAttr hsOutOfRangeAttrs "color_temp").isSome = true ∧
    getAttr (immediate_sync_light_on_data "light.b" hsOutOfRangeAttrs) "hs_color" = none ∧
    getAttr (immediate_sync_light_on_data "light.b" hsOutOfRangeAttrs) "color_temp"
      = some (.num 300) := by
  refine ⟨by simp [hsOutOfRangeAttrs, getAttr, alist_get],
    by simp [hsOutOfRangeAttrs, getAttr, alist_get], ?_, ?_⟩
  · simp [immediate_sync_light_on_data, validate_light_attributes, validateBrightness,
      validateColorTemp, validateHsColor, validateRgbColor, validateXyColor, optEntry,
      selectColorAttr, getAttr, alist_get, hsOutOfRangeAttrs]
  · simp [immediate_sync_light_on_data, validate_light_attributes, validateBrightness,
      validateColorTemp, validateHsColor, validateRgbColor, validateXyColor, optEntry,
      selectColorAttr, getAttr, alist_get, hsOutOfRangeAttrs]
    norm_num [Rat.floor_def']

/-- C3 (amended): every light mirror action built by `_immediate_sync` or
by the color step of `_progressive_light_sync` carries at most one
color-model parameter, chosen by the priority order hue-saturation > rgb
> xy > color-temperature over the validated attributes; in particular, if
the source carries a hue-saturation pair that passes validation (hue in
[0, 360], saturation in [0, 100]), the action carries that hue-saturation
pair and no color-temperature parameter, even when a color temperature is
also present. -/
theorem C3_color_priority_amended :
    (∀ (t : String) (attrs : AttrMap),
        colorParamCount (immediate_sync_light_on_data t attrs) ≤ 1) ∧
    (∀ (t : String) (validated : AttrMap),
        colorParamCount (progressive_light_color_data t validated) ≤ 1) ∧
    (∀ (t : String) (attrs : AttrMap) (h s : ℚ),
        getAttr attrs "hs_color" = some (.numList [h, s]) →
        0 ≤ h → h ≤ 360 → 0 ≤ s → s ≤ 100 →
        getAttr (immediate_sync_light_on_data t attrs) "hs_color" = some (.numList [h, s]) ∧
        getAttr (immediate_sync_light_on_data t attrs) "color_temp" = none) := by
  refine ⟨?_, ?_, ?_⟩
  · intro t attrs
    rw [colorParamCount_immediate]
    exact colorParamCount_selectColorAttr _
  · intro t v
    rw [colorParamCount_progressive]
    exact colorParamCount_selectColorAttr _
  · intro t attrs h s hhs hh0 hh1 hs0 hs1
    have hv : getAttr (validate_light_attributes attrs) "hs_color"
        = some (.numList [h, s]) := by
      rw [getAttr_validate_hs, hhs]
      simp [validateHsColor, hh0, hh1, hs0, hs1]
    constructor
    · rw [getAttr_immediate_colorKey t attrs "hs_color" (by simp [colorModelKeys])]
      unfold selectColorAttr
      rw [hv]
      simp [getAttr, alist_get]
    · rw [getAttr_immediate_colorKey t attrs "color_temp" (by simp [colorModelKeys])]
      unfold selectColorAttr
      rw [hv]
      simp [getAttr, alist_get]

/-- Witness for C3 (amended): hue-saturation (30, 80) together with color
temperature 300 emits hue-saturation only. -/
theorem C3_color_priority_amended_witness :
    getAttr (immediate_sync_light_on_data "light.b" hsAndCtAttrs) "hs_color"
      = some (.numList [30, 80]) ∧
    getAttr (immediate_sync_light_on_data "light.b" hsAndCtAttrs) "color_temp" = none := by
  exact C3_color_priority_amended.2.2 "light.b" hsAndCtAttrs 30 80
    (by simp [hsAndCtAttrs, getAttr, alist_get]) (by norm_num) (by norm_num)
    (by norm_num) (by norm_num)

/-- C5 counterexample: the claim predicts the emitted kelvin is clamped to
[2700, 6500] and computed by rounding: the code emits 10000 for mired 100
(no clamping), and truncates rather than rounds (mired 163 gives 6134
where round(1000000/163) = 6135). -/
theorem C5_counterexample :
    sync_color_temperature_kelvin 100 = 10000 ∧
    ¬ (sync_color_temperature_kelvin 100 ≤ 6500) ∧
    sync_color_temperature_kelvin 163 = 6134 ∧
    round ((1000000 : ℚ) / 163) = 6135 := by
  refine ⟨by norm_num [sync_color_temperature_kelvin],
    by norm_num [sync_color_temperature_kelvin],
    by norm_num [sync_color_temperature_kelvin],
    by norm_num [round_eq]⟩

/-- C5 (amended): the kelvin fallback value is the unclamped truncation
`1000000 / mired`, which for validated mireds (100 ≤ m ≤ 1000) lies in
[1000, 10000]; mired 200 yields kelvin 5000; and a mired value ≤ 0 (like
every mired outside the validation range [100, 1000]) is dropped at
validation rather than failing the whole action. -/
theorem C5_kelvin_amended :
    (∀ ct : ℕ, 100 ≤ ct → ct ≤ 1000 →
        1000 ≤ sync_color_temperature_kelvin ct ∧ sync_color_temperature_kelvin ct ≤ 10000) ∧
    sync_color_temperature_kelvin 200 = 5000 ∧
    (∀ q : ℚ, q ≤ 0 →
        getAttr (validate_light_attributes [("color_temp", AttrValue.num q)]) "color_temp"
          = none) := by
  refine ⟨?_, by norm_num [sync_color_temperature_kelvin], ?_⟩
  · intro ct h1 h2
    unfold sync_color_temperature_kelvin
    constructor
    · rw [Nat.le_div_iff_mul_le (by omega : 0 < ct)]
      omega
    · calc 1000000 / ct ≤ 1000000 / 100 := Nat.div_le_div_left h1 (by norm_num)
        _ = 10000 := by norm_num
  · intro q hq
    rw [getAttr_validate_color_temp]
    have hg : getAttr [("color_temp", AttrValue.num q)] "color_temp"
        = some (.num q) := by simp [getAttr, alist_get]
    rw [hg]
    simp only [validateColorTemp]
    rw [if_neg]
    rintro ⟨h100, _⟩
    linarith

/-- Witness for C5 (amended): mired 500 stays in bounds; mired -5 is
dropped at validation. -/
theorem C5_kelvin_amended_witness :
    (1000 ≤ sync_color_temperature_kelvin 500 ∧ sync_color_temperature_kelvin 500 ≤ 10000) ∧
    getAttr (validate_light_attributes [("color_temp", AttrValue.num (-5))]) "color_temp"
      = none := by
  exact ⟨C5_kelvin_amended.1 500 (by norm_num) (by norm_num),
    C5_kelvin_amended.2.2 (-5) (by norm_num)⟩

/-- C6 counterexample: mirroring a switch state onto a target whose state
and attributes already equal the source still issues an external
turn_on invocation, so the claimed idempotence (no external action) is
false. -/
theorem C6_counterexample :
    switchOnA.state = switchOnB.state ∧ switchOnA.attributes = switchOnB.attributes ∧
    sync_to_entity "perfect" switchOnA "switch.b" (some switchOnB)
      = [⟨"switch", "turn_on", [("entity_id", .str "switch.b")]⟩] := by
  refine ⟨rfl, rfl, ?_⟩
  decide

/-- C6 (amended): the mirror never consults the target's current state
for equality: in perfect mode on a same-domain pair, `_sync_to_entity`
requests exactly the same actions whatever state the target currently has
(equal to the source or not); equal-state suppression happens only in the
change handlers' significance and duplicate checks, not in the mirror. -/
theorem C6_target_state_independence :
    ∀ (source : EntityState) (target_entity_id : String) (t1 t2 : EntityState),
      source.domain = entityDomain target_entity_id →
      sync_to_entity "perfect" source target_entity_id (some t1)
        = sync_to_entity "perfect" source target_entity_id (some t2) := by
  intro source target t1 t2 h
  simp [sync_to_entity, h]

/-- Witness for C6 (amended): the calls for an already-equal target and
for a differing target coincide. -/
theorem C6_target_state_independence_witness :
    sync_to_entity "perfect" switchOnA "switch.b" (some switchOnB)
      = sync_to_entity "perfect" switchOnA "switch.b" (some switchOffB) := by
  exact C6_target_state_independence switchOnA "switch.b" switchOnB switchOffB
    (by decide)

/-- C9: a sync whose dispatching domain is outside the supported
per-domain table is a logged no-op: `_perfect_sync` with an unsupported
source domain requests no external action, and `_basic_sync` with an
unsupported target domain requests no external action; neither raises. -/
theorem C9_unsupported_domain_noop :
    (∀ (source : EntityState) (target_entity_id : String),
        source.domain ∉ perfectSupportedDomains →
        perfect_sync source target_entity_id = []) ∧
    (∀ (source : EntityState) (target_entity_id : String)
        (target_state : Option EntityState),
        entityDomain target_entity_id ∉ basicSupportedTargets →
        basic_sync source target_entity_id target_state = []) := by
  constructor
  · intro source target h
    simp only [perfectSupportedDomains, List.mem_cons, List.not_mem_nil, or_false,
      not_or] at h
    obtain ⟨h1, h2, h3, h4, h5, h6, h7, h8, h9, h10, h11, h12, h13, h14, h15⟩ := h
    simp [perfect_sync, h1, h2, h3, h4, h5, h6, h7, h8, h9, h10, h11, h12, h13, h14, h15]
  · intro source target tstate h
    simp only [basicSupportedTargets, List.mem_cons, List.not_mem_nil, or_false,
      not_or] at h
    obtain ⟨h1, h2, h3, h4, h5, h6, h7, h8, h9, h10, h11, h12, h13, h14⟩ := h
    simp [basic_sync, h1, h2, h3, h4, h5, h6, h7, h8, h9, h10, h11, h12, h13, h14]

/-- Witness for C9: a camera entity is outside both tables; both sync
paths request nothing. -/
theorem C9_unsupported_domain_noop_witness :
    perfect_sync cameraState "camera.y" = [] ∧
    basic_sync cameraState "camera.y" (some cameraState) = [] := by
  constructor
  · exact C9_unsupported_domain_noop.1 cameraState "camera.y" (by decide)
  · exact C9_unsupported_domain_noop.2 cameraState "camera.y" (some cameraState)
      (by decide)

/-- C4 counterexample: after an A→B mirror completed at time 0 (forward
timestamp recorded, sync-in-progress flag already cleared), the echo
confirmation arriving on B at 50 ms — well inside the 150 ms cooldown
window — is not recognized as an echo: the handler routes it to a reverse
B→A instant sync, because there is no echo record and the per-direction
cooldown key of the reverse direction is empty. -/
theorem C4_counterexample :
    (handle_entity_change coordAfterForward "switch.b" "switch.a"
        (some echoOldB) (some echoNewB) (1/20)).2
      = SyncDecision.instantSync "switch.b" "switch.a" echoNewB ∧
    ((1/20 : ℚ) - 0 < sync_cooldown) := by
  constructor
  · simp [handle_entity_change, is_significant_change, check_important_attrs_changed,
      importantAttrs, is_duplicate_state, stateFingerprint, dupImportantAttrs, alist_get,
      alist_set, getAttr, should_batch_sync, sync_cooldown, progressiveDomains,
      has_progressive_change, progressiveAttributes, echoOldB, echoNewB, coordAfterForward,
      lightExtraAttrs]
  · norm_num [sync_cooldown]

/-- C4 (amended): the mirror's own confirmation is suppressed only while
the `_sync_in_progress` flag is still set (for the duration of the mirror
call plus 10 ms): with the flag set, every change event — the echo
included — is dropped with no reverse sync and no state change. -/
theorem C4_sync_in_progress_suppression :
    ∀ (c : CoordState) (source_id target_id : String)
      (old_state new_state : Option EntityState) (now : ℚ),
      c.sync_in_progress = true →
      handle_entity_change c source_id target_id old_state new_state now
        = (c, .suppressed) := by
  intro c sid tid o n now h
  simp [handle_entity_change, h]

/-- Witness for C4 (amended): with the flag set the echo is suppressed. -/
theorem C4_sync_in_progress_suppression_witness :
    handle_entity_change ⟨true, [("switch.a->switch.b", 0)], []⟩ "switch.b" "switch.a"
        (some echoOldB) (some echoNewB) (1/20)
      = (⟨true, [("switch.a->switch.b", 0)], []⟩, .suppressed) := by
  exact C4_sync_in_progress_suppression ⟨true, [("switch.a->switch.b", 0)], []⟩
    "switch.b" "switch.a" (some echoOldB) (some echoNewB) (1/20) rfl

/-- C7: with both event states present and no sync in flight, a change is
routed to the progressive path exactly when it altered at least one of
the source domain's progressive attributes; a pure discrete-state flip
with no progressive-attribute delta (for a fresh coordinator state) is
handled by the instant path even on a progressive-capable domain. -/
theorem C7_progressive_routing :
    (∀ (c : CoordState) (source_id target_id : String) (old_s new_s : EntityState) (now : ℚ),
        c.sync_in_progress = false →
        (((handle_entity_change c source_id target_id (some old_s) (some new_s) now).2
            = SyncDecision.progressiveSync source_id target_id new_s)
          ↔ has_progressive_change old_s new_s = true)) ∧
    (∀ (source_id target_id : String) (old_s new_s : EntityState) (now : ℚ),
        ¬ old_s.state = new_s.state →
        has_progressive_change old_s new_s = false →
        (handle_entity_change ⟨false, [], []⟩ source_id target_id
            (some old_s) (some new_s) now).2
          = SyncDecision.instantSync source_id target_id new_s) := by
  constructor
  · intro c sid tid old_s new_s now hc
    by_cases hp : has_progressive_change old_s new_s = true
    · have hmem : new_s.domain ∈ progressiveDomains := by
        simpa using contains_of_has_progressive old_s new_s hp
      simp [handle_entity_change, hc, hmem, hp]
    · have hp' : has_progressive_change old_s new_s = false := by
        revert hp; cases has_progressive_change old_s new_s <;> simp
      simp only [handle_entity_change, hc, hp', Bool.false_eq_true, and_false, if_false,
        iff_false]
      split_ifs <;> try simp
      all_goals split <;> (try split_ifs) <;> simp
  · intro sid tid old_s new_s now hstate hp
    have hsig : is_significant_change new_s (some old_s) false = true :=
      is_significant_of_state_ne new_s old_s (fun he => hstate he.symm)
    simp [handle_entity_change, hp, hsig, is_duplicate_state, alist_get, alist_set,
      should_batch_sync]

/-- Witness for C7: a progressive-attribute change routes progressive; a
pure on/off flip on a light routes instant. -/
theorem C7_progressive_routing_witness :
    ((handle_entity_change ⟨false, [], []⟩ "cover.a" "cover.b"
        (some coverPos42) (some coverPos45) 0).2
      = SyncDecision.progressiveSync "cover.a" "cover.b" coverPos45) ∧
    ((handle_entity_change ⟨false, [], []⟩ "light.a" "light.b"
        (some lightOffPlain) (some lightOnPlain) 0).2
      = SyncDecision.instantSync "light.a" "light.b" lightOnPlain) := by
  constructor
  · exact (C7_progressive_routing.1 ⟨false, [], []⟩ "cover.a" "cover.b"
      coverPos42 coverPos45 0 rfl).mpr (by decide)
  · exact C7_progressive_routing.2 "light.a" "light.b" lightOffPlain lightOnPlain 0
      (by decide) (by decide)

/-- C8: no error escapes the coordinator: for every behaviour of the
external actuation interface, `_sync_to_entity` returns normally
(missing target, service-not-found, invocation error and unknown error
included), and — with the SyncStats update modelled from the spec, the
stats-carrying coordinator module being absent from the sources — every
attempt increments the attempt counter and every failing run increments
the failure counter while still returning normally. -/
theorem C8_no_error_escape :
    (∀ (svc : ServiceCall → Except SyncError Unit) (sync_mode : String)
        (source : EntityState) (target_entity_id : String)
        (target_state : Option EntityState),
        sync_to_entity_run svc sync_mode source target_entity_id target_state
          = Except.ok ()) ∧
    (∀ (svc : ServiceCall → Except SyncError Unit) (sync_mode : String)
        (source : EntityState) (target_entity_id : String)
        (target_state : Option EntityState) (stats : SyncStats),
        (sync_with_stats svc sync_mode source target_entity_id target_state stats).2
          = Except.ok () ∧
        (sync_with_stats svc sync_mode source target_entity_id target_state
            stats).1.total_syncs = stats.total_syncs + 1 ∧
        (∀ e : SyncError,
          runCalls svc (sync_to_entity sync_mode source target_entity_id target_state)
            = .error e →
          (sync_with_stats svc sync_mode source target_entity_id target_state
              stats).1.failed_syncs = stats.failed_syncs + 1)) := by
  constructor
  · intro svc m s t ts
    unfold sync_to_entity_run
    cases ts with
    | none => rfl
    | some u => cases runCalls svc (sync_to_entity m s t (some u)) <;> rfl
  · intro svc m s t ts stats
    unfold sync_with_stats
    cases ts with
    | none => exact ⟨rfl, rfl, fun e _ => rfl⟩
    | some u =>
      cases hr : runCalls svc (sync_to_entity m s t (some u)) with
      | ok v =>
        refine ⟨rfl, rfl, fun e he => ?_⟩
        cases he
      | error er => exact ⟨rfl, rfl, fun e _ => rfl⟩

/-- Witness for C8: an interface failing with ServiceNotFound on a switch
mirror still returns normally and the failure counter increments. -/
theorem C8_no_error_escape_witness :
    (sync_with_stats alwaysFailSvc "perfect" switchOnA "switch.b" (some switchOnB)
        ⟨0, 0, 0⟩).1.failed_syncs = 0 + 1 := by
  exact (C8_no_error_escape.2 alwaysFailSvc "perfect" switchOnA "switch.b" (some switchOnB)
      ⟨0, 0, 0⟩).2.2 .serviceNotFound (by rfl)

/-- C10: the duplicate-state check records the state's fingerprint
(discrete state plus the domain's important attributes) under the key
entity-id + state; a second call within 1.0 s with an identical
fingerprint reports a duplicate, and a call whose fingerprint differs
from the cached one reports no duplicate. -/
theorem C10_duplicate_suppression :
    (∀ (cache : List (String × CacheEntry)) (entity_id : String) (s : EntityState) (now : ℚ),
        (is_duplicate_state cache entity_id s now).1 = false →
        alist_get (is_duplicate_state cache entity_id s now).2 (entity_id ++ "_" ++ s.state)
          = some ⟨stateFingerprint s, now⟩) ∧
    (∀ (cache : List (String × CacheEntry)) (entity_id : String) (s : EntityState)
        (now t2 : ℚ),
        (is_duplicate_state cache entity_id s now).1 = false →
        t2 - now < 1 →
        (is_duplicate_state (is_duplicate_state cache entity_id s now).2 entity_id s t2).1
          = true) ∧
    (∀ (cache : List (String × CacheEntry)) (entity_id : String) (s : EntityState)
        (now : ℚ) (e : CacheEntry),
        alist_get cache (entity_id ++ "_" ++ s.state) = some e →
        e.fingerprint ≠ stateFingerprint s →
        (is_duplicate_state cache entity_id s now).1 = false) := by
  refine ⟨is_duplicate_state_records, ?_, ?_⟩
  · intro cache eid s now t2 h1 h2
    have hrec := is_duplicate_state_records cache eid s now h1
    set c1 := (is_duplicate_state cache eid s now).2 with hc1
    unfold is_duplicate_state
    dsimp only
    rw [hrec]
    simp [h2]
  · intro cache eid s now e he hne
    unfold is_duplicate_state
    dsimp only
    rw [he]
    simp [hne]

/-- Witness for C10: recording a light state then re-checking the same
fingerprint half a second later reports a duplicate. -/
theorem C10_duplicate_suppression_witness :
    (is_duplicate_state
        (is_duplicate_state [] "light.a" lightBri100 0).2 "light.a" lightBri100 (1/2)).1
      = true := by
  exact C10_duplicate_suppression.2.1 [] "light.a" lightBri100 0 (1/2)
    (by simp [is_duplicate_state, alist_get]) (by norm_num)

end TwoWaySync
